import Mathlib

/-!
Kavach zone-aggregation engine: shallow embedding and verification.

This file embeds the zone-aggregation core of the Kavach women-safety
application (server storage layer `DatabaseStorage`, the report-approval
route, the `POST /api/zones` route and the drizzle-zod insert schema) into
Lean 4 and proves or refutes the specification's claims about it.

Modelling conventions:
* SQL `decimal` coordinate columns (stored as strings, converted with
  `Number(...)` / `CAST(... AS DECIMAL)`) are modelled as `ℚ`.
* Nullable coordinate columns are `Option ℚ`; `Number(undefined) = NaN`
  makes every `<` comparison false, which the embedding renders as a
  `match` falling to `false` when a coordinate is missing.
* Row ids are `ℕ`; timestamps are `ℕ` (a logical clock `now` in the store).
* The database is a `Storage` record holding the `reports` and
  `unsafe_zones` tables as lists in physical (insertion) order; a plain
  `SELECT` without `ORDER BY` returns that order, and
  `ORDER BY created_at DESC` is an explicit stable sort.
* A failed `INSERT` (NOT NULL violation) leaves the store unchanged and
  surfaces a `storeFailure` error; operations that can fail return the
  resulting store together with an `Except`.
-/

namespace Kavach

/-- Error taxonomy of the storage/routing layer (spec §7). -/
inductive StorageError where
  | invalidInput : StorageError
  | notFound : StorageError
  | storeFailure : StorageError
deriving DecidableEq, Repr

/-- A row of the `reports` table (schema.ts `reports`); only the columns
the aggregation engine reads are carried. `latitude`/`longitude` are
nullable decimal columns. -/
structure Report where
  id : ℕ
  userId : Option ℕ
  location : String
  latitude : Option ℚ
  longitude : Option ℚ
  incidentType : String
  description : Option String
  status : String
  createdAt : ℕ
deriving DecidableEq, Repr

/-- A row of the `unsafe_zones` table (schema.ts `unsafeZones`).
`latitude`/`longitude` are NOT NULL decimal columns. -/
structure UnsafeZone where
  id : ℕ
  name : String
  latitude : ℚ
  longitude : ℚ
  radius : ℕ
  reportCount : ℕ
  riskLevel : String
  createdAt : ℕ
  updatedAt : ℕ
deriving DecidableEq, Repr

/-- The values `createUnsafeZone` receives for an insert into
`unsafe_zones`: `id`/`createdAt`/`updatedAt` are generated by the store;
the other columns come from the caller, each defaulted by the database
when absent. `latitude`/`longitude` are `Option` because a JS caller can
pass `undefined` despite the TS type — the NOT NULL constraint then
rejects the insert. -/
structure InsertUnsafeZone where
  name : String
  latitude : Option ℚ
  longitude : Option ℚ
  radius : Option ℕ
  reportCount : Option ℕ
  riskLevel : Option String
deriving DecidableEq, Repr

/-- The argument of `createOrUpdateZone`:
`{ name; latitude; longitude; radius? }`. Coordinates are `Option`
because the runtime value can be `undefined`/`null` even though the TS
signature says `string`. -/
structure ZoneCandidate where
  name : String
  latitude : Option ℚ
  longitude : Option ℚ
  radius : Option ℕ
deriving DecidableEq, Repr

/-- The whole database: the two tables the engine touches, a fresh-id
counter for generated primary keys, and a logical clock supplying
`new Date()` timestamps. -/
structure Storage where
  reports : List Report
  zones : List UnsafeZone
  nextId : ℕ
  now : ℕ
deriving Repr

/-- JS `x || d` on an optional number: `undefined`, `null` and `0` are
falsy, any other number is returned as-is. -/
def jsOrNat (x : Option ℕ) (d : ℕ) : ℕ :=
  match x with
  | none => d
  | some n => if n = 0 then d else n

/-- JS `Math.abs` / SQL `ABS` on a rational, written as an executable
conditional so concrete instances evaluate. -/
def ratAbs (q : ℚ) : ℚ := if q < 0 then -q else q

/-- The risk classifier inlined in `updateZoneReportCount`
(server/storage.ts lines 136–139):
`let riskLevel = 'low'; if (count >= 15) riskLevel = 'high';
else if (count >= 6) riskLevel = 'medium';
else if (count >= 4) riskLevel = 'low';`. -/
def classify (count : ℕ) : String :=
  if count ≥ 15 then "high"
  else if count ≥ 6 then "medium"
  else if count ≥ 4 then "low"
  else "low"

/-- Tier order used by the spec's monotonicity property:
low < medium < high, as a numeric rank. -/
def tierRank (risk : String) : ℕ :=
  if risk = "high" then 2
  else if risk = "medium" then 1
  else 0

/-! ## Storage operations (server/storage.ts, class `DatabaseStorage`) -/

/-- Stable insertion into a list already sorted by `createdAt` descending. -/
def insertByCreatedAtDesc (z : UnsafeZone) : List UnsafeZone → List UnsafeZone
  | [] => [z]
  | w :: ws =>
      if w.createdAt ≥ z.createdAt then w :: insertByCreatedAtDesc z ws
      else z :: w :: ws

/-- `ORDER BY created_at DESC` over the zone table, as a stable sort. -/
def sortByCreatedAtDesc (zs : List UnsafeZone) : List UnsafeZone :=
  zs.foldr insertByCreatedAtDesc []

/-- Embeds `getAllUnsafeZones`: `SELECT * FROM unsafe_zones ORDER BY
created_at DESC` (storage.ts lines 131–133). -/
def getAllUnsafeZones (s : Storage) : List UnsafeZone :=
  sortByCreatedAtDesc s.zones

/-- Embeds `updateZoneReportCount(zoneId, count)` (storage.ts lines 135–148):
classifies `count`, then `UPDATE unsafe_zones SET report_count, risk_level,
updated_at WHERE id = zoneId`. -/
def updateZoneReportCount (s : Storage) (zoneId : ℕ) (count : ℕ) : Storage :=
  { s with zones := s.zones.map fun z =>
      if z.id = zoneId then
        { z with reportCount := count, riskLevel := classify count, updatedAt := s.now }
      else z }

/-- Embeds `createUnsafeZone(insertZone)` (storage.ts lines 126–129): INSERT into
`unsafe_zones` with generated id and `DEFAULT now()` timestamps, database
defaults for absent columns (`radius` 100, `report_count` 0, `risk_level`
low); a missing NOT NULL coordinate makes the INSERT fail, leaving the
table unchanged. -/
def createUnsafeZone (s : Storage) (iz : InsertUnsafeZone) :
    Storage × Except StorageError UnsafeZone :=
  match iz.latitude, iz.longitude with
  | some la, some lo =>
      let z : UnsafeZone :=
        { id := s.nextId, name := iz.name, latitude := la, longitude := lo,
          radius := iz.radius.getD 100, reportCount := iz.reportCount.getD 0,
          riskLevel := iz.riskLevel.getD "low", createdAt := s.now, updatedAt := s.now }
      ({ s with zones := s.zones ++ [z], nextId := s.nextId + 1 }, .ok z)
  | _, _ => (s, .error .storeFailure)

/-- The merge test of `createOrUpdateZone` (storage.ts lines 159–163):
`Math.abs(Number(zone.latitude) - Number(data.latitude)) < 0.005` on both
axes. `Number(undefined)` is `NaN` and every `NaN` comparison is false,
so a candidate missing either coordinate matches no zone. -/
def zoneMatches (z : UnsafeZone) (c : ZoneCandidate) : Bool :=
  match c.latitude, c.longitude with
  | some la, some lo =>
      decide (ratAbs (z.latitude - la) < (5 : ℚ)/1000) &&
      decide (ratAbs (z.longitude - lo) < (5 : ℚ)/1000)
  | _, _ => false

/-- Embeds `createOrUpdateZone(data)` (storage.ts lines 154–181): scan all zones
in table order; on the first zone within 0.005° on both axes, write
`(zone.reportCount || 0) + 1` through `updateZoneReportCount` and return
the record read before the update; otherwise insert a new zone with
`reportCount: 1`, `riskLevel: 'low'`, `radius: data.radius || 100`. -/
def createOrUpdateZone (s : Storage) (data : ZoneCandidate) :
    Storage × Except StorageError UnsafeZone :=
  match s.zones.find? (fun z => zoneMatches z data) with
  | some zone =>
      let newCount := zone.reportCount + 1
      (updateZoneReportCount s zone.id newCount, .ok zone)
  | none =>
      createUnsafeZone s
        { name := data.name, latitude := data.latitude, longitude := data.longitude,
          radius := some (jsOrNat data.radius 100),
          reportCount := some 1, riskLevel := some "low" }

/-- The per-zone count of `getZonesWithReportCounts` (storage.ts lines
189–196): SQL predicate `status = 'approved' AND ABS(lat − zone.lat) <
0.01 AND ABS(lng − zone.lng) < 0.01`; a NULL coordinate makes the SQL
comparison unknown, so the row is not counted. -/
def reportInZone (r : Report) (z : UnsafeZone) : Bool :=
  r.status = "approved" &&
  match r.latitude, r.longitude with
  | some la, some lo =>
      decide (ratAbs (la - z.latitude) < (1 : ℚ)/100) &&
      decide (ratAbs (lo - z.longitude) < (1 : ℚ)/100)
  | _, _ => false

/-- The `count(*)` of approved reports matching a zone under the 0.01°
threshold. -/
def countReportsInZone (reports : List Report) (z : UnsafeZone) : ℕ :=
  (reports.filter (fun r => reportInZone r z)).length

/-- Embeds `getZonesWithReportCounts()` (storage.ts lines 183–203): read all
zones, then for each zone in that snapshot count the matching approved
reports and write the count back via `updateZoneReportCount`; finally
return `getAllUnsafeZones()`. -/
def getZonesWithReportCounts (s : Storage) : Storage × List UnsafeZone :=
  let s' := s.zones.foldl
    (fun acc zone => updateZoneReportCount acc zone.id (countReportsInZone acc.reports zone)) s
  (s', getAllUnsafeZones s')

/-- Embeds `updateReportStatus(id, status)` (storage.ts lines 121–124):
`UPDATE reports SET status WHERE id = id RETURNING *`; the route reads
the first returned row. -/
def updateReportStatus (s : Storage) (rid : ℕ) (status : String) :
    Storage × Option Report :=
  let reports' := s.reports.map fun r => if r.id = rid then { r with status := status } else r
  ({ s with reports := reports' }, reports'.find? (fun r => r.id = rid))

/-! ## Route handlers (server/routes.ts) -/

/-- Embeds `PATCH /api/reports/:id/approve` (routes.ts lines 320–345):
look the report up (404 when absent), set its status to `approved`, and —
only when `report.latitude && report.longitude` are truthy — call
`createOrUpdateZone` with name `` `${report.incidentType} Zone` `` and
radius 100; respond with the updated report. -/
def approveReport (s : Storage) (rid : ℕ) : Storage × Except StorageError Report :=
  match s.reports.find? (fun r => r.id = rid) with
  | none => (s, .error .notFound)
  | some report =>
      let p := updateReportStatus s rid "approved"
      let answer : Except StorageError Report :=
        match p.2 with
        | some u => .ok u
        | none => .error .storeFailure
      if report.latitude.isSome && report.longitude.isSome then
        let q := createOrUpdateZone p.1
          { name := report.incidentType ++ " Zone",
            latitude := report.latitude, longitude := report.longitude,
            radius := some 100 }
        match q.2 with
        | .ok _ => (q.1, answer)
        | .error e => (q.1, .error e)
      else
        (p.1, answer)

/-- A parsed JSON body for `POST /api/zones`, before zod validation;
every field may be absent. Coordinates are already normalised to numbers
(the zod transform turns `string | number` into the decimal string the
database stores, modelled as `ℚ`). -/
structure ZoneRequestBody where
  name : Option String
  latitude : Option ℚ
  longitude : Option ℚ
  radius : Option ℕ
  reportCount : Option ℕ
  riskLevel : Option String
deriving DecidableEq, Repr

/-- Embeds `insertUnsafeZoneSchema` (shared/schema.ts lines 141–148):
`createInsertSchema(unsafeZones)` omitting only `id`, `createdAt`,
`updatedAt`. Columns without a database default (`name`, `latitude`,
`longitude`) are required; `radius`, `reportCount` and `riskLevel` are
optional and pass through when present. -/
def insertUnsafeZoneSchemaParse (b : ZoneRequestBody) :
    Except StorageError InsertUnsafeZone :=
  match b.name, b.latitude, b.longitude with
  | some n, some la, some lo =>
      .ok { name := n, latitude := some la, longitude := some lo,
            radius := b.radius, reportCount := b.reportCount,
            riskLevel := b.riskLevel }
  | _, _, _ => .error .invalidInput

/-- Embeds `POST /api/zones` (routes.ts lines 379–388): parse the body
with `insertUnsafeZoneSchema`, then `storage.createUnsafeZone(zoneData)`.
-/
def postZones (s : Storage) (body : ZoneRequestBody) :
    Storage × Except StorageError UnsafeZone :=
  match insertUnsafeZoneSchemaParse body with
  | .ok zoneData => createUnsafeZone s zoneData
  | .error e => (s, .error e)

/-- The value `getZonesWithReportCounts` writes back for one zone: the
recomputed approved-report count, its classified tier, and a fresh
`updatedAt`. -/
def recomputedZone (reports : List Report) (now : ℕ) (z : UnsafeZone) : UnsafeZone :=
  { z with reportCount := countReportsInZone reports z,
           riskLevel := classify (countReportsInZone reports z),
           updatedAt := now }

/-- The static zone columns the aggregation engine never writes:
everything except `reportCount`, `riskLevel` and `updatedAt`. -/
def zoneStatics (z : UnsafeZone) : ℕ × String × ℚ × ℚ × ℕ × ℕ :=
  (z.id, z.name, z.latitude, z.longitude, z.radius, z.createdAt)

/-! ## Concrete fixtures used by witnesses and counterexamples -/

/-- A zone at the spec's test location (28.6139, 77.2090). -/
def specZone : UnsafeZone :=
  { id := 1, name := "harassment Zone", latitude := 286139/10000, longitude := 772090/10000,
    radius := 100, reportCount := 3, riskLevel := "low", createdAt := 1, updatedAt := 1 }

/-- Approved report at (28.6140, 77.2091): inside the 0.01° recompute
threshold of `specZone`. -/
def specReport1 : Report :=
  { id := 1, userId := some 1, location := "CP", latitude := some (286140/10000),
    longitude := some (772091/10000), incidentType := "harassment", description := none,
    status := "approved", createdAt := 1 }

/-- Approved report at (28.6200, 77.2200): outside the 0.01° recompute
threshold of `specZone` (longitude delta 0.011). -/
def specReport2 : Report :=
  { id := 2, userId := some 1, location := "far", latitude := some (286200/10000),
    longitude := some (772200/10000), incidentType := "stalking", description := none,
    status := "approved", createdAt := 1 }

/-- Approved report at (28.6141, 77.2089): inside the 0.01° recompute
threshold of `specZone`. -/
def specReport3 : Report :=
  { id := 3, userId := some 2, location := "CP", latitude := some (286141/10000),
    longitude := some (772089/10000), incidentType := "assault", description := none,
    status := "approved", createdAt := 1 }

/-- A report with no coordinates, still pending. -/
def specReportNoCoords : Report :=
  { id := 4, userId := none, location := "unknown", latitude := none, longitude := none,
    incidentType := "theft", description := none, status := "pending", createdAt := 2 }

/-- The spec's recompute test fixture: one zone, three approved reports of
which two are inside the 0.01° threshold. -/
def specStore : Storage :=
  { reports := [specReport1, specReport2, specReport3, specReportNoCoords],
    zones := [specZone], nextId := 2, now := 9 }

/-- The spec's merge test candidate at (28.6139, 77.2090): deltas 0.0001°
from `specZone`, inside the 0.005° merge threshold. -/
def specCandidate : ZoneCandidate :=
  { name := "stalking Zone", latitude := some (286139/10000),
    longitude := some (772090/10000), radius := some 100 }

/-- The spec's non-merging candidate at (28.7000, 77.3000): deltas
larger than 0.005° from `specZone`. -/
def specCandidateFar : ZoneCandidate :=
  { name := "assault Zone", latitude := some (287000/10000),
    longitude := some (773000/10000), radius := none }

/-- A candidate whose latitude is missing at runtime. -/
def specCandidateNoLat : ZoneCandidate :=
  { name := "ghost Zone", latitude := none, longitude := some (772090/10000),
    radius := some 100 }

/-- The admin map-click body: `reportCount: 0`, no `riskLevel`
(client/src/pages/admin-dashboard `handleMapClick`). -/
def adminClickBody : ZoneRequestBody :=
  { name := some "Market Area", latitude := some 28, longitude := some 77,
    radius := none, reportCount := some 0, riskLevel := none }

/-- A forged admin body carrying caller-chosen derived fields. -/
def forgedBody : ZoneRequestBody :=
  { name := some "Forged Zone", latitude := some 28, longitude := some 77,
    radius := none, reportCount := some 7, riskLevel := some "high" }

/-- An empty store. -/
def emptyStore : Storage := { reports := [], zones := [], nextId := 1, now := 0 }

/-! ## General lemmas about the embedding -/

theorem ratAbs_eq_abs (q : ℚ) : ratAbs q = |q| := by
  unfold ratAbs
  split
  · exact (abs_of_neg (by assumption)).symm
  · exact (abs_of_nonneg (le_of_not_lt (by assumption))).symm

/-- Characterisation of the merge test in terms of absolute differences. -/
theorem zoneMatches_iff (z : UnsafeZone) (c : ZoneCandidate) :
    zoneMatches z c = true ↔
      ∃ la lo, c.latitude = some la ∧ c.longitude = some lo ∧
        |z.latitude - la| < (5 : ℚ)/1000 ∧ |z.longitude - lo| < (5 : ℚ)/1000 := by
  unfold zoneMatches
  rcases hla : c.latitude with _ | la <;> rcases hlo : c.longitude with _ | lo <;>
    simp [ratAbs_eq_abs]

/-- Characterisation of the recompute-count test in terms of absolute
differences. -/
theorem reportInZone_iff (r : Report) (z : UnsafeZone) :
    reportInZone r z = true ↔
      r.status = "approved" ∧
      ∃ la lo, r.latitude = some la ∧ r.longitude = some lo ∧
        |la - z.latitude| < (1 : ℚ)/100 ∧ |lo - z.longitude| < (1 : ℚ)/100 := by
  unfold reportInZone
  rcases hla : r.latitude with _ | la <;> rcases hlo : r.longitude with _ | lo <;>
    simp [ratAbs_eq_abs, and_assoc]

/-- The recompute test only looks at a zone's coordinates. -/
theorem reportInZone_coords (r : Report) (z w : UnsafeZone)
    (hla : z.latitude = w.latitude) (hlo : z.longitude = w.longitude) :
    reportInZone r z = reportInZone r w := by
  unfold reportInZone
  rw [hla, hlo]

theorem countReportsInZone_coords (reports : List Report) (z w : UnsafeZone)
    (hla : z.latitude = w.latitude) (hlo : z.longitude = w.longitude) :
    countReportsInZone reports z = countReportsInZone reports w := by
  unfold countReportsInZone
  congr 1
  exact List.filter_congr fun r _ => by rw [reportInZone_coords r z w hla hlo]

theorem classify_high {n : ℕ} (h : 15 ≤ n) : classify n = "high" := by
  unfold classify
  rw [if_pos h]

theorem classify_medium {n : ℕ} (h6 : 6 ≤ n) (h15 : n < 15) : classify n = "medium" := by
  unfold classify
  rw [if_neg (by omega), if_pos h6]

theorem classify_low {n : ℕ} (h : n < 6) : classify n = "low" := by
  unfold classify
  rw [if_neg (by omega), if_neg (by omega)]
  split <;> rfl

theorem tierRank_classify (n : ℕ) :
    tierRank (classify n) = if 15 ≤ n then 2 else if 6 ≤ n then 1 else 0 := by
  by_cases h15 : 15 ≤ n
  · rw [classify_high h15, if_pos h15]; rfl
  · rw [if_neg h15]
    by_cases h6 : 6 ≤ n
    · rw [classify_medium h6 (by omega), if_pos h6]; rfl
    · rw [classify_low (by omega), if_neg h6]; rfl

/-- A successful linear scan splits the list at the first hit. -/
theorem find?_split {α : Type} {p : α → Bool} {l : List α} {a : α}
    (h : l.find? p = some a) :
    ∃ pre post, l = pre ++ a :: post ∧ ∀ x ∈ pre, p x = false := by
  induction l with
  | nil => simp at h
  | cons b bs ih =>
    by_cases hb : p b = true
    · rw [List.find?_cons_of_pos _ hb] at h
      obtain rfl : b = a := by injection h
      exact ⟨[], bs, rfl, by simp⟩
    · rw [List.find?_cons_of_neg _ hb] at h
      obtain ⟨pre, post, hl, hpre⟩ := ih h
      refine ⟨b :: pre, post, by rw [hl]; rfl, ?_⟩
      intro x hx
      rcases List.mem_cons.mp hx with rfl | hx
      · exact Bool.eq_false_iff.mpr hb
      · exact hpre x hx

/-- With pairwise-distinct ids, updating by the id of a distinguished
element rewrites exactly that element. -/
theorem map_update_by_id (pre post : List UnsafeZone) (z : UnsafeZone)
    (f : UnsafeZone → UnsafeZone)
    (hnodup : ((pre ++ z :: post).map UnsafeZone.id).Nodup) :
    ((pre ++ z :: post).map fun w => if w.id = z.id then f w else w)
      = pre ++ f z :: post := by
  simp only [List.map_append, List.map_cons, List.nodup_append, List.nodup_cons,
    List.mem_map] at hnodup
  obtain ⟨-, ⟨hzpost, -⟩, hdisj⟩ := hnodup
  rw [List.map_append, List.map_cons, if_pos rfl]
  congr 1
  · conv_rhs => rw [← List.map_id pre]
    refine List.map_congr_left fun w hw => ?_
    have hne : ¬ w.id = z.id := fun hid =>
      hdisj (List.mem_map.mpr ⟨w, hw, rfl⟩) (by simp [hid])
    rw [if_neg hne]
    rfl
  · congr 1
    conv_rhs => rw [← List.map_id post]
    refine List.map_congr_left fun w hw => ?_
    have hne : ¬ w.id = z.id := fun hid => hzpost ⟨w, hw, hid⟩
    rw [if_neg hne]
    rfl

theorem updateZoneReportCount_reports (s : Storage) (zid c : ℕ) :
    (updateZoneReportCount s zid c).reports = s.reports := rfl

theorem updateZoneReportCount_now (s : Storage) (zid c : ℕ) :
    (updateZoneReportCount s zid c).now = s.now := rfl

theorem updateZoneReportCount_nextId (s : Storage) (zid c : ℕ) :
    (updateZoneReportCount s zid c).nextId = s.nextId := rfl

theorem recomputedZone_id (reports : List Report) (now : ℕ) (z : UnsafeZone) :
    (recomputedZone reports now z).id = z.id := rfl

theorem recomputedZone_createdAt (reports : List Report) (now : ℕ) (z : UnsafeZone) :
    (recomputedZone reports now z).createdAt = z.createdAt := rfl

theorem countReportsInZone_recomputed (reports rs : List Report) (now : ℕ) (z : UnsafeZone) :
    countReportsInZone rs (recomputedZone reports now z) = countReportsInZone rs z :=
  countReportsInZone_coords rs _ z rfl rfl

/-- The inner loop of `getZonesWithReportCounts`, run over any suffix of
the zone snapshot: with pairwise-distinct ids it rewrites each snapshot
zone to its recomputed value, in place. -/
theorem recompute_foldl (reports : List Report) (now : ℕ) :
    ∀ (l done : List UnsafeZone) (s : Storage),
      s.reports = reports → s.now = now → s.zones = done ++ l →
      ((done ++ l).map UnsafeZone.id).Nodup →
      (l.foldl (fun acc zone =>
          updateZoneReportCount acc zone.id (countReportsInZone acc.reports zone)) s).zones
        = done ++ l.map (recomputedZone reports now) := by
  intro l
  induction l with
  | nil => intro done s _ _ hz _; simpa using hz
  | cons z rest ih =>
    intro done s hr hn hz hnodup
    rw [List.foldl_cons]
    have hstep : (updateZoneReportCount s z.id (countReportsInZone s.reports z)).zones
        = (done ++ [recomputedZone reports now z]) ++ rest := by
      unfold updateZoneReportCount
      simp only
      rw [hz, map_update_by_id done rest z _ (hz ▸ hnodup)]
      rw [hr, hn]
      simp [recomputedZone]
    have hids : (((done ++ [recomputedZone reports now z]) ++ rest).map UnsafeZone.id).Nodup := by
      have : ((done ++ [recomputedZone reports now z]) ++ rest).map UnsafeZone.id
          = (done ++ z :: rest).map UnsafeZone.id := by
        simp [recomputedZone_id]
      rw [this]
      exact hnodup
    have := ih (done ++ [recomputedZone reports now z])
      (updateZoneReportCount s z.id (countReportsInZone s.reports z))
      (by rw [updateZoneReportCount_reports, hr])
      (by rw [updateZoneReportCount_now, hn])
      hstep hids
    rw [this]
    simp

/-- `getZonesWithReportCounts` rewrites every zone of the store to its
recomputed value and touches nothing else, given pairwise-distinct zone
ids. -/
theorem getZonesWithReportCounts_zones (s : Storage)
    (hnodup : (s.zones.map UnsafeZone.id).Nodup) :
    (getZonesWithReportCounts s).1.zones
      = s.zones.map (recomputedZone s.reports s.now) := by
  unfold getZonesWithReportCounts
  simpa using recompute_foldl s.reports s.now s.zones [] s rfl rfl rfl (by simpa using hnodup)

theorem getZonesWithReportCounts_reports (s : Storage) :
    (getZonesWithReportCounts s).1.reports = s.reports := by
  unfold getZonesWithReportCounts
  simp only
  generalize s.zones = l
  induction l generalizing s with
  | nil => rfl
  | cons z rest ih => rw [List.foldl_cons, ih]; rfl

theorem getZonesWithReportCounts_now (s : Storage) :
    (getZonesWithReportCounts s).1.now = s.now := by
  unfold getZonesWithReportCounts
  simp only
  generalize s.zones = l
  induction l generalizing s with
  | nil => rfl
  | cons z rest ih => rw [List.foldl_cons, ih]; rfl

theorem getZonesWithReportCounts_snd (s : Storage) :
    (getZonesWithReportCounts s).2
      = sortByCreatedAtDesc (getZonesWithReportCounts s).1.zones := rfl

theorem mem_insertByCreatedAtDesc {z w : UnsafeZone} {l : List UnsafeZone} :
    w ∈ insertByCreatedAtDesc z l ↔ w = z ∨ w ∈ l := by
  induction l with
  | nil => simp [insertByCreatedAtDesc]
  | cons a as ih =>
    unfold insertByCreatedAtDesc
    split
    · simp only [List.mem_cons, ih]
      tauto
    · simp [List.mem_cons]

theorem mem_sortByCreatedAtDesc {w : UnsafeZone} {l : List UnsafeZone} :
    w ∈ sortByCreatedAtDesc l ↔ w ∈ l := by
  induction l with
  | nil => simp [sortByCreatedAtDesc]
  | cons a as ih =>
    unfold sortByCreatedAtDesc at ih ⊢
    rw [List.foldr_cons, mem_insertByCreatedAtDesc, ih, List.mem_cons]

theorem insertByCreatedAtDesc_map (f : UnsafeZone → UnsafeZone)
    (hf : ∀ z, (f z).createdAt = z.createdAt) (z : UnsafeZone) (l : List UnsafeZone) :
    insertByCreatedAtDesc (f z) (l.map f) = (insertByCreatedAtDesc z l).map f := by
  induction l with
  | nil => rfl
  | cons a as ih =>
    rw [List.map_cons]
    unfold insertByCreatedAtDesc
    rw [hf, hf]
    split
    · rw [ih]
      simp
    · simp

theorem sortByCreatedAtDesc_map (f : UnsafeZone → UnsafeZone)
    (hf : ∀ z, (f z).createdAt = z.createdAt) (l : List UnsafeZone) :
    sortByCreatedAtDesc (l.map f) = (sortByCreatedAtDesc l).map f := by
  induction l with
  | nil => rfl
  | cons a as ih =>
    unfold sortByCreatedAtDesc at ih ⊢
    rw [List.map_cons, List.foldr_cons, List.foldr_cons, ih,
      insertByCreatedAtDesc_map f hf]

theorem createOrUpdateZone_reports (s : Storage) (data : ZoneCandidate) :
    (createOrUpdateZone s data).1.reports = s.reports := by
  unfold createOrUpdateZone
  rcases h : s.zones.find? (fun z => zoneMatches z data) with _ | zone
  · unfold createUnsafeZone
    rcases data.latitude with _ | la <;> rcases data.longitude with _ | lo <;> rfl
  · rfl

/-- Scanning a status-rewritten report table for an id finds the rewritten
version of what the original scan finds. -/
theorem find?_map_preserving_id (l : List Report) (rid : ℕ) (f : Report → Report)
    (hf : ∀ r, (f r).id = r.id) :
    (l.map f).find? (fun r => r.id = rid) = (l.find? (fun r => r.id = rid)).map f := by
  induction l with
  | nil => rfl
  | cons a as ih =>
    rw [List.map_cons]
    by_cases h : a.id = rid
    · rw [List.find?_cons_of_pos _ (by simp [hf, h]),
        List.find?_cons_of_pos _ (by simp [h])]
      rfl
    · rw [List.find?_cons_of_neg _ (by simp [hf, h]),
        List.find?_cons_of_neg _ (by simp [h]), ih]

end Kavach

namespace Kavach

/-! ## Claim theorems -/

/-- C7: the risk classifier is a pure total function from counts into
the three tiers: `"high"` for counts ≥ 15, `"medium"` for 6 ≤ count < 15,
`"low"` for counts < 6; with the quoted concrete values and monotonicity
in the tier order low < medium < high. -/
theorem C7_classifier_total_monotone (a b : ℕ) (hab : a ≤ b) :
    (∀ n : ℕ, 15 ≤ n → classify n = "high") ∧
    (∀ n : ℕ, 6 ≤ n → n < 15 → classify n = "medium") ∧
    (∀ n : ℕ, n < 6 → classify n = "low") ∧
    (∀ n : ℕ, classify n = "low" ∨ classify n = "medium" ∨ classify n = "high") ∧
    classify 0 = "low" ∧ classify 5 = "low" ∧ classify 6 = "medium" ∧
    classify 14 = "medium" ∧ classify 15 = "high" ∧
    tierRank (classify a) ≤ tierRank (classify b) := by
  refine ⟨fun n h => classify_high h, fun n h6 h15 => classify_medium h6 h15,
    fun n h => classify_low h, ?_, classify_low (by omega), classify_low (by omega),
    classify_medium (by omega) (by omega), classify_medium (by omega) (by omega),
    classify_high (by omega), ?_⟩
  · intro n
    by_cases h15 : 15 ≤ n
    · exact Or.inr (Or.inr (classify_high h15))
    · by_cases h6 : 6 ≤ n
      · exact Or.inr (Or.inl (classify_medium h6 (by omega)))
      · exact Or.inl (classify_low (by omega))
  · rw [tierRank_classify, tierRank_classify]
    split_ifs <;> omega

/-- Witness for C7 at `a = 3 ≤ b = 20`. -/
theorem C7_classifier_total_monotone_witness :
    (3 : ℕ) ≤ 20 ∧
    ((∀ n : ℕ, 15 ≤ n → classify n = "high") ∧
     (∀ n : ℕ, 6 ≤ n → n < 15 → classify n = "medium") ∧
     (∀ n : ℕ, n < 6 → classify n = "low") ∧
     (∀ n : ℕ, classify n = "low" ∨ classify n = "medium" ∨ classify n = "high") ∧
     classify 0 = "low" ∧ classify 5 = "low" ∧ classify 6 = "medium" ∧
     classify 14 = "medium" ∧ classify 15 = "high" ∧
     tierRank (classify 3) ≤ tierRank (classify 20)) :=
  ⟨by omega, C7_classifier_total_monotone 3 20 (by omega)⟩

/-- C1: after `getZonesWithReportCounts`, every zone in the store carries
`reportCount` equal to the number of approved reports within strictly
0.01° of the zone on both axes (the 0.01 threshold, not 0.005) and
`riskLevel` equal to the classifier of that count; the returned list is
the written-back table and satisfies the same equations. -/
theorem C1_recompute_correct (s : Storage)
    (hnodup : (s.zones.map UnsafeZone.id).Nodup) :
    (∀ z ∈ (getZonesWithReportCounts s).1.zones,
        z.reportCount = countReportsInZone s.reports z ∧
        z.riskLevel = classify z.reportCount) ∧
    (getZonesWithReportCounts s).2
        = sortByCreatedAtDesc (getZonesWithReportCounts s).1.zones ∧
    (∀ z ∈ (getZonesWithReportCounts s).2,
        z.reportCount = countReportsInZone s.reports z ∧
        z.riskLevel = classify z.reportCount) ∧
    (∀ (r : Report) (z : UnsafeZone), reportInZone r z = true ↔
        r.status = "approved" ∧ ∃ la lo, r.latitude = some la ∧ r.longitude = some lo ∧
          |la - z.latitude| < (1 : ℚ)/100 ∧ |lo - z.longitude| < (1 : ℚ)/100) := by
  have hz := getZonesWithReportCounts_zones s hnodup
  have hmain : ∀ z ∈ (getZonesWithReportCounts s).1.zones,
      z.reportCount = countReportsInZone s.reports z ∧
      z.riskLevel = classify z.reportCount := by
    intro z hzmem
    rw [hz] at hzmem
    obtain ⟨w, hw, rfl⟩ := List.mem_map.mp hzmem
    refine ⟨?_, rfl⟩
    show countReportsInZone s.reports w
        = countReportsInZone s.reports (recomputedZone s.reports s.now w)
    rw [countReportsInZone_recomputed]
  refine ⟨hmain, getZonesWithReportCounts_snd s, ?_, fun r z => reportInZone_iff r z⟩
  intro z hzmem
  rw [getZonesWithReportCounts_snd s, mem_sortByCreatedAtDesc] at hzmem
  exact hmain z hzmem

/-- Witness for C1 on the spec's recompute fixture (zone at
(28.6139, 77.2090), three approved reports of which two are inside the
0.01° box), also checking the geometric count is 2 there. -/
theorem C1_recompute_correct_witness :
    ((specStore.zones.map UnsafeZone.id).Nodup ∧
     ((∀ z ∈ (getZonesWithReportCounts specStore).1.zones,
          z.reportCount = countReportsInZone specStore.reports z ∧
          z.riskLevel = classify z.reportCount) ∧
      (getZonesWithReportCounts specStore).2
          = sortByCreatedAtDesc (getZonesWithReportCounts specStore).1.zones ∧
      (∀ z ∈ (getZonesWithReportCounts specStore).2,
          z.reportCount = countReportsInZone specStore.reports z ∧
          z.riskLevel = classify z.reportCount) ∧
      (∀ (r : Report) (z : UnsafeZone), reportInZone r z = true ↔
          r.status = "approved" ∧ ∃ la lo, r.latitude = some la ∧ r.longitude = some lo ∧
            |la - z.latitude| < (1 : ℚ)/100 ∧ |lo - z.longitude| < (1 : ℚ)/100))) ∧
    countReportsInZone specStore.reports specZone = 2 := by
  have h : (specStore.zones.map UnsafeZone.id).Nodup := by simp [specStore, specZone]
  refine ⟨⟨h, C1_recompute_correct specStore h⟩, ?_⟩
  norm_num [countReportsInZone, reportInZone, specStore, specZone, specReport1,
    specReport2, specReport3, specReportNoCoords, ratAbs, List.filter]


/-- C8: recompute is idempotent on the derived fields: a second
`getZonesWithReportCounts` on the untouched report set (at any later
clock `t`) writes the same `reportCount`/`riskLevel` into every zone and
returns a list with the same `reportCount`/`riskLevel` in every position
as the first call. -/
theorem C8_recompute_idempotent (s : Storage) (t : ℕ)
    (hnodup : (s.zones.map UnsafeZone.id).Nodup) :
    List.Forall₂
      (fun z1 z2 => z2.reportCount = z1.reportCount ∧ z2.riskLevel = z1.riskLevel)
      (getZonesWithReportCounts s).1.zones
      (getZonesWithReportCounts
        { (getZonesWithReportCounts s).1 with now := t }).1.zones ∧
    List.Forall₂
      (fun z1 z2 => z2.reportCount = z1.reportCount ∧ z2.riskLevel = z1.riskLevel)
      (getZonesWithReportCounts s).2
      (getZonesWithReportCounts
        { (getZonesWithReportCounts s).1 with now := t }).2 := by
  have hz1 : (getZonesWithReportCounts s).1.zones
      = s.zones.map (recomputedZone s.reports s.now) :=
    getZonesWithReportCounts_zones s hnodup
  have hr1 : (getZonesWithReportCounts s).1.reports = s.reports :=
    getZonesWithReportCounts_reports s
  have hnodup1 :
      (({ (getZonesWithReportCounts s).1 with now := t }).zones.map UnsafeZone.id).Nodup := by
    show ((getZonesWithReportCounts s).1.zones.map UnsafeZone.id).Nodup
    rw [hz1, List.map_map]
    have : s.zones.map (UnsafeZone.id ∘ recomputedZone s.reports s.now)
        = s.zones.map UnsafeZone.id :=
      List.map_congr_left fun z _ => recomputedZone_id s.reports s.now z
    rw [this]
    exact hnodup
  have hz2 : (getZonesWithReportCounts
        { (getZonesWithReportCounts s).1 with now := t }).1.zones
      = (getZonesWithReportCounts s).1.zones.map (recomputedZone s.reports t) := by
    have := getZonesWithReportCounts_zones
      { (getZonesWithReportCounts s).1 with now := t } hnodup1
    rw [this]
    show (getZonesWithReportCounts s).1.zones.map
        (recomputedZone (getZonesWithReportCounts s).1.reports t) = _
    rw [hr1]
  have hpt : ∀ z ∈ (getZonesWithReportCounts s).1.zones,
      (recomputedZone s.reports t z).reportCount = z.reportCount ∧
      (recomputedZone s.reports t z).riskLevel = z.riskLevel := by
    intro z hzmem
    rw [hz1] at hzmem
    obtain ⟨w, hw, rfl⟩ := List.mem_map.mp hzmem
    constructor
    · show countReportsInZone s.reports (recomputedZone s.reports s.now w)
        = countReportsInZone s.reports w
      exact countReportsInZone_recomputed s.reports s.reports s.now w
    · show classify (countReportsInZone s.reports (recomputedZone s.reports s.now w))
        = classify (countReportsInZone s.reports w)
      rw [countReportsInZone_recomputed]
  constructor
  · rw [hz2, List.forall₂_map_right_iff, List.forall₂_same]
    exact hpt
  · rw [getZonesWithReportCounts_snd, getZonesWithReportCounts_snd, hz2,
      sortByCreatedAtDesc_map (recomputedZone s.reports t)
        (fun z => recomputedZone_createdAt s.reports t z),
      List.forall₂_map_right_iff, List.forall₂_same]
    intro z hzmem
    exact hpt z (mem_sortByCreatedAtDesc.mp hzmem)

/-- Witness for C8 on the spec fixture, second call at clock 11. -/
theorem C8_recompute_idempotent_witness :
    (specStore.zones.map UnsafeZone.id).Nodup ∧
    (List.Forall₂
      (fun z1 z2 => z2.reportCount = z1.reportCount ∧ z2.riskLevel = z1.riskLevel)
      (getZonesWithReportCounts specStore).1.zones
      (getZonesWithReportCounts
        { (getZonesWithReportCounts specStore).1 with now := 11 }).1.zones ∧
     List.Forall₂
      (fun z1 z2 => z2.reportCount = z1.reportCount ∧ z2.riskLevel = z1.riskLevel)
      (getZonesWithReportCounts specStore).2
      (getZonesWithReportCounts
        { (getZonesWithReportCounts specStore).1 with now := 11 }).2) := by
  have h : (specStore.zones.map UnsafeZone.id).Nodup := by simp [specStore, specZone]
  exact ⟨h, C8_recompute_idempotent specStore 11 h⟩


/-- C2: when some stored zone lies within strictly 0.005° of the
candidate on both axes, `createOrUpdateZone` rewrites exactly the first
matching zone in table order — incrementing its `reportCount` by 1,
reclassifying `riskLevel`, refreshing `updatedAt` — creates no zone, and
leaves every other zone (and the report table) unchanged. -/
theorem C2_merge_first_match (s : Storage) (data : ZoneCandidate)
    (hnodup : (s.zones.map UnsafeZone.id).Nodup)
    (hex : ∃ z ∈ s.zones, ∃ la lo, data.latitude = some la ∧ data.longitude = some lo ∧
      |z.latitude - la| < (5 : ℚ)/1000 ∧ |z.longitude - lo| < (5 : ℚ)/1000) :
    ∃ zone pre post,
      s.zones = pre ++ zone :: post ∧
      zoneMatches zone data = true ∧
      (∀ w ∈ pre, zoneMatches w data = false) ∧
      (createOrUpdateZone s data).1.zones
        = pre ++ { zone with
            reportCount := zone.reportCount + 1,
            riskLevel := classify (zone.reportCount + 1),
            updatedAt := s.now } :: post ∧
      (createOrUpdateZone s data).1.zones.length = s.zones.length ∧
      (createOrUpdateZone s data).1.reports = s.reports := by
  obtain ⟨z, hzmem, la, lo, hla, hlo, h1, h2⟩ := hex
  have hzmatch : zoneMatches z data = true :=
    (zoneMatches_iff z data).mpr ⟨la, lo, hla, hlo, h1, h2⟩
  rcases hfind : s.zones.find? (fun w => zoneMatches w data) with _ | zone
  · exact absurd hzmatch (by simpa using List.find?_eq_none.mp hfind z hzmem)
  · obtain ⟨pre, post, hl, hpre⟩ := find?_split hfind
    have hupd : (createOrUpdateZone s data).1
        = updateZoneReportCount s zone.id (zone.reportCount + 1) := by
      unfold createOrUpdateZone
      rw [hfind]
    refine ⟨zone, pre, post, hl, by simpa using List.find?_some hfind, ?_, ?_, ?_, ?_⟩
    · intro w hw
      simpa using hpre w hw
    · rw [hupd]
      unfold updateZoneReportCount
      simp only
      rw [hl, map_update_by_id pre post zone _ (hl ▸ hnodup)]
    · rw [hupd]
      unfold updateZoneReportCount
      simp
    · rw [hupd, updateZoneReportCount_reports]

/-- Witness for C2: the spec's merge fixture — `specCandidate` at
(28.6139, 77.2090) against `specStore`, whose only zone sits at the same
point. -/
theorem C2_merge_first_match_witness :
    ((specStore.zones.map UnsafeZone.id).Nodup ∧
     (∃ z ∈ specStore.zones, ∃ la lo,
        specCandidate.latitude = some la ∧ specCandidate.longitude = some lo ∧
        |z.latitude - la| < (5 : ℚ)/1000 ∧ |z.longitude - lo| < (5 : ℚ)/1000)) ∧
    (∃ zone pre post,
      specStore.zones = pre ++ zone :: post ∧
      zoneMatches zone specCandidate = true ∧
      (∀ w ∈ pre, zoneMatches w specCandidate = false) ∧
      (createOrUpdateZone specStore specCandidate).1.zones
        = pre ++ { zone with
            reportCount := zone.reportCount + 1,
            riskLevel := classify (zone.reportCount + 1),
            updatedAt := specStore.now } :: post ∧
      (createOrUpdateZone specStore specCandidate).1.zones.length
        = specStore.zones.length ∧
      (createOrUpdateZone specStore specCandidate).1.reports = specStore.reports) := by
  have h1 : (specStore.zones.map UnsafeZone.id).Nodup := by simp [specStore, specZone]
  have h2 : ∃ z ∈ specStore.zones, ∃ la lo,
      specCandidate.latitude = some la ∧ specCandidate.longitude = some lo ∧
      |z.latitude - la| < (5 : ℚ)/1000 ∧ |z.longitude - lo| < (5 : ℚ)/1000 := by
    refine ⟨specZone, by simp [specStore], 286139/10000, 772090/10000, rfl, rfl, ?_, ?_⟩ <;>
      norm_num [specZone]
  exact ⟨⟨h1, h2⟩, C2_merge_first_match specStore specCandidate h1 h2⟩

/-- C3: when no stored zone lies within strictly 0.005° of the candidate
on both axes (and the candidate carries coordinates but no radius),
`createOrUpdateZone` appends exactly one new zone carrying the
candidate's name and coordinates with `reportCount` 1, `riskLevel` low
and the default radius 100, leaving every existing zone and all reports
unchanged. -/
theorem C3_create_new_zone (s : Storage) (data : ZoneCandidate) (la lo : ℚ)
    (hla : data.latitude = some la) (hlo : data.longitude = some lo)
    (hrad : data.radius = none)
    (hnomatch : ∀ z ∈ s.zones,
      ¬(|z.latitude - la| < (5 : ℚ)/1000 ∧ |z.longitude - lo| < (5 : ℚ)/1000)) :
    ∃ newZone,
      (createOrUpdateZone s data).1.zones = s.zones ++ [newZone] ∧
      (createOrUpdateZone s data).2 = .ok newZone ∧
      newZone.name = data.name ∧ newZone.latitude = la ∧ newZone.longitude = lo ∧
      newZone.reportCount = 1 ∧ newZone.riskLevel = "low" ∧ newZone.radius = 100 ∧
      (createOrUpdateZone s data).1.reports = s.reports := by
  have hfind : s.zones.find? (fun w => zoneMatches w data) = none := by
    rw [List.find?_eq_none]
    intro z hzmem hmatch
    obtain ⟨la', lo', hla', hlo', h1, h2⟩ := (zoneMatches_iff z data).mp hmatch
    rw [hla] at hla'
    rw [hlo] at hlo'
    obtain rfl : la = la' := by injection hla'
    obtain rfl : lo = lo' := by injection hlo'
    exact hnomatch z hzmem ⟨h1, h2⟩
  have hstep : createOrUpdateZone s data
      = createUnsafeZone s
          { name := data.name, latitude := data.latitude, longitude := data.longitude,
            radius := some (jsOrNat data.radius 100),
            reportCount := some 1, riskLevel := some "low" } := by
    unfold createOrUpdateZone
    rw [hfind]
  refine ⟨{ id := s.nextId, name := data.name, latitude := la, longitude := lo,
            radius := 100, reportCount := 1, riskLevel := "low",
            createdAt := s.now, updatedAt := s.now }, ?_, ?_, rfl, rfl, rfl, rfl, rfl, rfl,
          createOrUpdateZone_reports s data⟩ <;>
    simp [hstep, createUnsafeZone, hla, hlo, hrad, jsOrNat]

/-- Witness for C3: the spec's outside-threshold fixture —
`specCandidateFar` at (28.7000, 77.3000) against `specStore`, whose only
zone sits at (28.6139, 77.2090). -/
theorem C3_create_new_zone_witness :
    (specCandidateFar.latitude = some (287000/10000) ∧
     specCandidateFar.longitude = some (773000/10000) ∧
     specCandidateFar.radius = none ∧
     (∀ z ∈ specStore.zones,
        ¬(|z.latitude - (287000 : ℚ)/10000| < (5 : ℚ)/1000 ∧
          |z.longitude - (773000 : ℚ)/10000| < (5 : ℚ)/1000))) ∧
    (∃ newZone,
      (createOrUpdateZone specStore specCandidateFar).1.zones
        = specStore.zones ++ [newZone] ∧
      (createOrUpdateZone specStore specCandidateFar).2 = .ok newZone ∧
      newZone.name = specCandidateFar.name ∧
      newZone.latitude = 287000/10000 ∧ newZone.longitude = 773000/10000 ∧
      newZone.reportCount = 1 ∧ newZone.riskLevel = "low" ∧ newZone.radius = 100 ∧
      (createOrUpdateZone specStore specCandidateFar).1.reports = specStore.reports) := by
  have h4 : ∀ z ∈ specStore.zones,
      ¬(|z.latitude - (287000 : ℚ)/10000| < (5 : ℚ)/1000 ∧
        |z.longitude - (773000 : ℚ)/10000| < (5 : ℚ)/1000) := by
    intro z hz
    simp only [specStore, List.mem_singleton] at hz
    subst hz
    rintro ⟨h1, -⟩
    rw [abs_lt] at h1
    norm_num [specZone] at h1
  exact ⟨⟨rfl, rfl, rfl, h4⟩,
    C3_create_new_zone specStore specCandidateFar (287000/10000) (773000/10000)
      rfl rfl rfl h4⟩

/-- C4 (code bug): on the merge path `createOrUpdateZone` returns the
zone record read before the update. At the spec fixture the stored zone
ends with `reportCount` 4, yet the returned record still carries the
pre-increment count 3. -/
theorem C4_stale_return_bug :
    (createOrUpdateZone specStore specCandidate).2 = .ok specZone ∧
    specZone.reportCount = 3 ∧
    (createOrUpdateZone specStore specCandidate).1.zones.map UnsafeZone.reportCount
      = [4] := by
  have hfind : specStore.zones.find? (fun z => zoneMatches z specCandidate)
      = some specZone := by
    norm_num [specStore, specZone, specCandidate, zoneMatches, List.find?, ratAbs]
  refine ⟨?_, rfl, ?_⟩
  · unfold createOrUpdateZone
    rw [hfind]
  · unfold createOrUpdateZone
    rw [hfind]
    unfold updateZoneReportCount
    simp [specStore, specZone]

/-- C5 (amended): a candidate missing either coordinate matches no zone
(`NaN` comparisons are all false) and the fallback INSERT violates the
NOT NULL coordinate columns, so `createOrUpdateZone` surfaces a
store-level failure — not `InvalidInput` — and the store is unchanged;
in particular no zone is created at (0,0) or anywhere else. -/
theorem C5_missing_coordinates_storeFailure (s : Storage) (data : ZoneCandidate)
    (h : data.latitude = none ∨ data.longitude = none) :
    createOrUpdateZone s data = (s, .error .storeFailure) := by
  have hnm : ∀ z : UnsafeZone, zoneMatches z data = false := by
    intro z
    unfold zoneMatches
    rcases hla : data.latitude with _ | la <;> rcases hlo : data.longitude with _ | lo <;>
      simp_all
  have hfind : s.zones.find? (fun z => zoneMatches z data) = none :=
    List.find?_eq_none.mpr fun z _ => by simp [hnm z]
  unfold createOrUpdateZone
  rw [hfind]
  unfold createUnsafeZone
  rcases hla : data.latitude with _ | la <;> rcases hlo : data.longitude with _ | lo <;>
    simp_all

/-- Witness for the amended C5 at the concrete latitude-less candidate. -/
theorem C5_missing_coordinates_storeFailure_witness :
    (specCandidateNoLat.latitude = none ∨ specCandidateNoLat.longitude = none) ∧
    createOrUpdateZone specStore specCandidateNoLat
      = (specStore, .error .storeFailure) :=
  ⟨Or.inl rfl,
   C5_missing_coordinates_storeFailure specStore specCandidateNoLat (Or.inl rfl)⟩

/-- C5 counterexample: at the latitude-less candidate the operation does
not fail with `InvalidInput` (the error is the store's NOT NULL
violation), refuting the claimed error kind; the store is unchanged. -/
theorem C5_not_invalidInput :
    (createOrUpdateZone specStore specCandidateNoLat).2
      ≠ .error .invalidInput ∧
    (createOrUpdateZone specStore specCandidateNoLat).1 = specStore := by
  constructor <;>
    simp [createOrUpdateZone, createUnsafeZone, specStore, specCandidateNoLat,
      zoneMatches, List.find?, specZone]

/-- C9 counterexample: `POST /api/zones` with a forged body stores a zone
with caller-chosen `reportCount` 7 (not the documented seed 0) and
caller-chosen tier `"high"`, which is not even the classifier's value for
7. -/
theorem C9_derived_fields_settable :
    (postZones emptyStore forgedBody).1.zones.map UnsafeZone.reportCount = [7] ∧
    (postZones emptyStore forgedBody).1.zones.map UnsafeZone.riskLevel = ["high"] ∧
    (7 : ℕ) ≠ 0 ∧ classify 7 ≠ "high" := by
  refine ⟨?_, ?_, by omega, by simp [classify]⟩ <;>
    simp [postZones, insertUnsafeZoneSchemaParse, createUnsafeZone, emptyStore, forgedBody]

/-- C9 (amended): `insertUnsafeZoneSchema` omits only id, createdAt and
updatedAt, so admin zone creation passes caller-supplied `reportCount`
and `riskLevel` straight through, applying the seeds 0 / low only when
the caller omits those fields. -/
theorem C9_postZones_passthrough (s : Storage) (b : ZoneRequestBody)
    (n : String) (la lo : ℚ)
    (hn : b.name = some n) (hla : b.latitude = some la) (hlo : b.longitude = some lo) :
    ∃ z, postZones s b
        = ({ s with zones := s.zones ++ [z], nextId := s.nextId + 1 }, .ok z) ∧
      z.reportCount = b.reportCount.getD 0 ∧
      z.riskLevel = b.riskLevel.getD "low" ∧
      z.name = n ∧ z.latitude = la ∧ z.longitude = lo ∧
      z.radius = b.radius.getD 100 := by
  refine ⟨{ id := s.nextId, name := n, latitude := la, longitude := lo,
            radius := b.radius.getD 100, reportCount := b.reportCount.getD 0,
            riskLevel := b.riskLevel.getD "low", createdAt := s.now, updatedAt := s.now },
          ?_, rfl, rfl, rfl, rfl, rfl, rfl⟩
  simp [postZones, insertUnsafeZoneSchemaParse, createUnsafeZone, hn, hla, hlo]

/-- Witness for the amended C9: the admin map-click body (`reportCount`
0, no `riskLevel`) yields the documented seed values. -/
theorem C9_postZones_passthrough_witness :
    (adminClickBody.name = some "Market Area" ∧ adminClickBody.latitude = some 28 ∧
     adminClickBody.longitude = some 77) ∧
    ∃ z, postZones emptyStore adminClickBody
        = ({ emptyStore with
              zones := emptyStore.zones ++ [z],
              nextId := emptyStore.nextId + 1 }, .ok z) ∧
      z.reportCount = adminClickBody.reportCount.getD 0 ∧
      z.riskLevel = adminClickBody.riskLevel.getD "low" ∧
      z.name = "Market Area" ∧ z.latitude = 28 ∧ z.longitude = 77 ∧
      z.radius = adminClickBody.radius.getD 100 :=
  ⟨⟨rfl, rfl, rfl⟩,
   C9_postZones_passthrough emptyStore adminClickBody "Market Area" 28 77 rfl rfl rfl⟩

/-- The recompute loop only ever rewrites zones in place through
statics-preserving per-element functions, id-uniqueness not needed. -/
theorem recompute_foldl_statics :
    ∀ (l : List UnsafeZone) (s : Storage),
      ∃ F : UnsafeZone → UnsafeZone,
        (l.foldl (fun acc zone =>
            updateZoneReportCount acc zone.id (countReportsInZone acc.reports zone)) s).zones
          = s.zones.map F ∧ ∀ w, zoneStatics (F w) = zoneStatics w := by
  intro l
  induction l with
  | nil => exact fun s => ⟨id, by simp, fun w => rfl⟩
  | cons z rest ih =>
    intro s
    rw [List.foldl_cons]
    obtain ⟨F, hF, hstat⟩ :=
      ih (updateZoneReportCount s z.id (countReportsInZone s.reports z))
    refine ⟨fun w => F (if w.id = z.id then
        { w with reportCount := countReportsInZone s.reports z,
                 riskLevel := classify (countReportsInZone s.reports z),
                 updatedAt := s.now } else w), ?_, ?_⟩
    · rw [hF]
      show (s.zones.map _).map F = _
      rw [List.map_map]
      rfl
    · intro w
      rw [hstat]
      split <;> rfl

/-- C10: neither the merge path nor the recompute path deletes a zone or
writes any zone column beyond `reportCount`, `riskLevel`, `updatedAt`:
id, name, latitude, longitude, radius and createdAt of every pre-existing
zone are preserved position by position, and the zone count never
shrinks. -/
theorem C10_frame_conditions (s : Storage) (data : ZoneCandidate) :
    (s.zones.length ≤ (createOrUpdateZone s data).1.zones.length ∧
     List.Forall₂ (fun orig new => zoneStatics new = zoneStatics orig)
       s.zones ((createOrUpdateZone s data).1.zones.take s.zones.length)) ∧
    ((getZonesWithReportCounts s).1.zones.length = s.zones.length ∧
     List.Forall₂ (fun orig new => zoneStatics new = zoneStatics orig)
       s.zones (getZonesWithReportCounts s).1.zones) := by
  constructor
  · rcases hfind : s.zones.find? (fun z => zoneMatches z data) with _ | zone
    · have hstep : createOrUpdateZone s data
          = createUnsafeZone s
              { name := data.name, latitude := data.latitude, longitude := data.longitude,
                radius := some (jsOrNat data.radius 100),
                reportCount := some 1, riskLevel := some "low" } := by
        unfold createOrUpdateZone
        rw [hfind]
      rw [hstep]
      unfold createUnsafeZone
      rcases data.latitude with _ | la <;> rcases data.longitude with _ | lo
      · exact ⟨le_refl _, by
          rw [List.take_length]
          exact List.forall₂_same.mpr fun z _ => rfl⟩
      · exact ⟨le_refl _, by
          rw [List.take_length]
          exact List.forall₂_same.mpr fun z _ => rfl⟩
      · exact ⟨le_refl _, by
          rw [List.take_length]
          exact List.forall₂_same.mpr fun z _ => rfl⟩
      · refine ⟨by simp, ?_⟩
        show List.Forall₂ _ s.zones ((s.zones ++ [_]).take s.zones.length)
        rw [List.take_left]
        exact List.forall₂_same.mpr fun z _ => rfl
    · have hstep : (createOrUpdateZone s data).1
          = updateZoneReportCount s zone.id (zone.reportCount + 1) := by
        unfold createOrUpdateZone
        rw [hfind]
      rw [hstep]
      unfold updateZoneReportCount
      refine ⟨by simp, ?_⟩
      show List.Forall₂ _ s.zones ((s.zones.map _).take s.zones.length)
      rw [← List.length_map s.zones _, List.take_length, List.forall₂_map_right_iff]
      refine List.forall₂_same.mpr fun z _ => ?_
      split <;> rfl
  · obtain ⟨F, hF, hstat⟩ := recompute_foldl_statics s.zones s
    have hz : (getZonesWithReportCounts s).1.zones = s.zones.map F := hF
    rw [hz]
    exact ⟨by simp, by
      rw [List.forall₂_map_right_iff]
      exact List.forall₂_same.mpr fun z _ => hstat z⟩

/-- C6: approving a missing report id fails with NotFound and changes
nothing; approving an existing report rewrites exactly that report's
status to approved and invokes the merge path with name
`"{incidentType} Zone"` precisely when the report carries both
coordinates — a coordinate-less approval still succeeds and leaves the
zone table untouched. -/
theorem C6_approve_route (s : Storage) (rid : ℕ) :
    (s.reports.find? (fun r => r.id = rid) = none →
        approveReport s rid = (s, .error .notFound)) ∧
    (∀ report, s.reports.find? (fun r => r.id = rid) = some report →
      (approveReport s rid).1.reports
          = s.reports.map
              (fun r => if r.id = rid then { r with status := "approved" } else r) ∧
      ((report.latitude.isSome ∧ report.longitude.isSome) →
        (approveReport s rid).1.zones =
          (createOrUpdateZone
            { s with
              reports := s.reports.map
                (fun r => if r.id = rid then { r with status := "approved" } else r) }
            { name := report.incidentType ++ " Zone", latitude := report.latitude,
              longitude := report.longitude, radius := some 100 }).1.zones) ∧
      (¬(report.latitude.isSome ∧ report.longitude.isSome) →
        (approveReport s rid).1.zones = s.zones ∧
        (approveReport s rid).2 = .ok { report with status := "approved" })) := by
  constructor
  · intro h
    unfold approveReport
    rw [h]
  · intro report hfind
    have hrid : report.id = rid := by simpa using List.find?_some hfind
    have hfmap : ∀ r : Report,
        ((if r.id = rid then { r with status := "approved" } else r) : Report).id = r.id := by
      intro r
      split <;> rfl
    have hp2 : (s.reports.map
          (fun r => if r.id = rid then { r with status := "approved" } else r)).find?
        (fun r => r.id = rid) = some { report with status := "approved" } := by
      rw [find?_map_preserving_id s.reports rid _ hfmap, hfind]
      simp [hrid]
    have hbody : approveReport s rid
        = (let p := updateReportStatus s rid "approved"
           let answer : Except StorageError Report :=
             match p.2 with
             | some u => .ok u
             | none => .error .storeFailure
           if report.latitude.isSome && report.longitude.isSome then
             let q := createOrUpdateZone p.1
               { name := report.incidentType ++ " Zone",
                 latitude := report.latitude, longitude := report.longitude,
                 radius := some 100 }
             match q.2 with
             | .ok _ => (q.1, answer)
             | .error e => (q.1, .error e)
           else
             (p.1, answer)) := by
      unfold approveReport
      rw [hfind]
    rcases hcond : (report.latitude.isSome && report.longitude.isSome) with _ | _
    · -- no coordinates: guard is false
      have hnot : ¬(report.latitude.isSome ∧ report.longitude.isSome) := by
        intro hco
        rw [Bool.and_eq_false_iff] at hcond
        rcases hcond with h | h <;> simp [h] at hco
      rw [hbody]
      simp only [hcond, Bool.false_eq_true, if_false, updateReportStatus, hp2]
      refine ⟨?_, ?_, ?_⟩
      · trivial
      · first
        | trivial
        | exact fun hco => absurd hco hnot
      · first
        | trivial
        | exact fun _ => ⟨rfl, rfl⟩
        | exact fun _ => ⟨trivial, trivial⟩
    · -- coordinates present: guard is true
      have hco : report.latitude.isSome ∧ report.longitude.isSome := by
        rw [Bool.and_eq_true] at hcond
        exact hcond
      rw [hbody]
      simp only [hcond, if_true, updateReportStatus, hp2]
      rcases hq : (createOrUpdateZone
          { s with
            reports := s.reports.map
              (fun r => if r.id = rid then { r with status := "approved" } else r) }
          { name := report.incidentType ++ " Zone",
            latitude := report.latitude, longitude := report.longitude,
            radius := some 100 }).2 with e | z
      · simp only [hq]
        refine ⟨?_, ?_, ?_⟩
        · first
          | trivial
          | exact createOrUpdateZone_reports _ _
        · first
          | trivial
          | exact fun _ => trivial
        · first
          | trivial
          | exact fun hn => absurd hco hn
      · simp only [hq]
        refine ⟨?_, ?_, ?_⟩
        · first
          | trivial
          | exact createOrUpdateZone_reports _ _
        · first
          | trivial
          | exact fun _ => trivial
        · first
          | trivial
          | exact fun hn => absurd hco hn

/-- Witness for C6: approving the coordinate-less pending report in the
spec fixture succeeds and leaves the zone table untouched. -/
theorem C6_approve_route_witness :
    specStore.reports.find? (fun r => r.id = 4) = some specReportNoCoords ∧
    ¬(specReportNoCoords.latitude.isSome ∧ specReportNoCoords.longitude.isSome) ∧
    (approveReport specStore 4).1.zones = specStore.zones ∧
    (approveReport specStore 4).2
      = .ok { specReportNoCoords with status := "approved" } := by
  have hfind : specStore.reports.find? (fun r => r.id = 4) = some specReportNoCoords := by
    norm_num [specStore, specReport1, specReport2, specReport3, specReportNoCoords,
      List.find?]
  have hnone : ¬(specReportNoCoords.latitude.isSome ∧ specReportNoCoords.longitude.isSome) := by
    simp [specReportNoCoords]
  have h := (C6_approve_route specStore 4).2 specReportNoCoords hfind
  exact ⟨hfind, hnone, (h.2.2 hnone).1, (h.2.2 hnone).2⟩

/-- Witness for C10 at the spec fixture: the merge call does not shrink
the zone table and the recompute call preserves its length. -/
theorem C10_frame_conditions_witness :
    specStore.zones.length ≤ (createOrUpdateZone specStore specCandidate).1.zones.length ∧
    (getZonesWithReportCounts specStore).1.zones.length = specStore.zones.length :=
  ⟨(C10_frame_conditions specStore specCandidate).1.1,
   (C10_frame_conditions specStore specCandidate).2.1⟩

end Kavach
